import Mathlib

/-!
Shallow embedding of `src/EmailSender.py` (class `EmailSender`) and proofs of
the specification claims about it.

Modelling choices, kept close to the Python source:
* Python exceptions become `Except PyError`; `try/except Exception` becomes a
  `match` on the `Except` value.
* The external collaborators (file system reads, the `mjml_to_html` converter,
  the `aiosmtplib.send` transport) are an explicit environment `Env` of
  functions; a file-system path maps to `none` when the file does not exist.
* Variable dictionaries (`Dict[str, any]`) become association lists
  `List (String × String)` with first-match lookup (Python dict keys are
  unique, and both `str.format` and jinja insert the string form of a value).
* jinja2 `Template(...).render(**variables)` (src/EmailSender.py:85-86) is
  modelled by its documented default behaviour on the placeholder subset the
  repository uses: parse `{{ name }}` placeholders, substitute the context
  value, and render an undefined variable as the empty string (jinja2's
  default `Undefined`).
* Python `str.format(**variables)` (src/EmailSender.py:253) is modelled on the
  plain `{name}` field subset the repository uses: `{{`/`}}` escapes, a field
  name looked up in the keyword arguments (missing key raises `KeyError`,
  empty field raises `IndexError`), and stray single braces raise `ValueError`.
* `async` functions are deterministic given `Env`, so a coroutine is modelled
  by its eventual result; `asyncio.gather(..., return_exceptions=True)` becomes
  `gatherWrap`, which turns a raised exception into a value.
-/

namespace EmailSenderModel

/-- A rendering context: Python `dict` of variable name to (stringified) value. -/
abbrev Ctx := List (String × String)

/-- The Python exceptions the embedded code can raise. -/
inductive PyError where
  | fileNotFound (msg : String)
  | valueError (msg : String)
  | keyError (key : String)
  | indexError
  | syntaxError (msg : String)
  | smtpError (msg : String)
deriving DecidableEq, Repr

/-- First-match association-list lookup, modelling Python dict lookup. -/
def lookupCtx : Ctx → String → Option String
  | [], _ => none
  | (k, v) :: rest, key => if k = key then some v else lookupCtx rest key

/-- Result dictionary of the external `mjml_to_html` converter:
an `errors` list and the produced `html`. -/
structure MjmlResult where
  errors : List String
  html : String
deriving DecidableEq, Repr

/-- The assembled MIME message (`MIMEMultipart` built by `_create_message`):
subject, recipient, From header, optional joined Cc/Bcc headers, HTML body,
and attachment parts as (filename, payload) pairs. -/
structure Message where
  subject : String
  toEmail : String
  fromHeader : String
  ccHeader : Option String
  bccHeader : Option String
  html : String
  attachments : List (String × String)
deriving DecidableEq, Repr

/-- The external world of an `EmailSender` instance: the file system, the
`mjml_to_html` converter, the `aiosmtplib.send` transport, and the
per-instance From fields set in `__init__`. -/
structure Env where
  fs : String → Option String
  mjml : String → MjmlResult
  transport : Message → Except PyError Unit
  fromEmail : String
  fromName : Option String

/-- Model of `EmailSender._load_mjml_template` (src/EmailSender.py:56-71): raise
`FileNotFoundError` when the path does not exist, else return the contents. -/
def load_mjml_template (env : Env) (templatePath : String) : Except PyError String :=
  match env.fs templatePath with
  | none => .error (.fileNotFound ("Template no encontrado: " ++ templatePath))
  | some content => .ok content

/-- A parsed jinja template token: literal text or a `\x7b\x7b name \x7d\x7d` placeholder. -/
inductive JTok where
  | text (s : String)
  | varTok (name : String)
deriving DecidableEq, Repr

/-- Split a character list at the first `\x7d\x7d`, returning the part before and
the part after; `none` when no `\x7d\x7d` occurs. -/
def splitClose : List Char → Option (List Char × List Char)
  | [] => none
  | '}' :: '}' :: rest => some ([], rest)
  | c :: rest =>
    match splitClose rest with
    | none => none
    | some (a, b) => some (c :: a, b)

/-- Strip leading and trailing spaces of a placeholder name. -/
def trimSpaces (l : List Char) : String :=
  String.mk (((l.dropWhile (fun c => c = ' ')).reverse.dropWhile (fun c => c = ' ')).reverse)

/-- Prepend a literal character to a token list, merging with a leading text token. -/
def consText (c : Char) : List JTok → List JTok
  | .text s :: rest => .text (String.mk (c :: s.data)) :: rest
  | toks => .text (String.mk [c]) :: toks

/-- Fuelled scanner for jinja `\x7b\x7b name \x7d\x7d` placeholders (the construction of
`Template(mjml_content)`); an unterminated placeholder is a
`TemplateSyntaxError`. The fuel strictly exceeds the character count at every
call, so the fuel-exhaustion branch is unreachable from `parseJinja`. -/
def parseJinjaAux : Nat → List Char → Except PyError (List JTok)
  | 0, _ => .error (.syntaxError "fuel exhausted")
  | _ + 1, [] => .ok []
  | n + 1, '{' :: '{' :: rest =>
    match splitClose rest with
    | none => .error (.syntaxError "unexpected end of template")
    | some (inner, rest2) =>
      match parseJinjaAux n rest2 with
      | .error e => .error e
      | .ok toks => .ok (.varTok (trimSpaces inner) :: toks)
  | n + 1, c :: rest =>
    match parseJinjaAux n rest with
    | .error e => .error e
    | .ok toks => .ok (consText c toks)

/-- Parse a jinja template string into tokens. -/
def parseJinja (s : String) : Except PyError (List JTok) :=
  parseJinjaAux (s.data.length + 1) s.data

/-- Render one token: literal text stays, a placeholder becomes the context
value, and an undefined variable renders as the empty string (jinja2's
default `Undefined`). -/
def renderTok (vars : Ctx) : JTok → String
  | .text s => s
  | .varTok n => (lookupCtx vars n).getD ""

/-- Model of `Template(...).render(**variables)`: concatenate the rendered tokens. -/
def jinjaSubst (toks : List JTok) (vars : Ctx) : String :=
  toks.foldr (fun t acc => renderTok vars t ++ acc) ""

/-- Model of `EmailSender._render_template` (src/EmailSender.py:73-94): jinja-render the
MJML content, convert with `mjml_to_html`, raise `ValueError` when the
converter reports errors, else return the HTML. -/
def render_template (env : Env) (mjmlContent : String) (vars : Ctx) : Except PyError String :=
  match parseJinja mjmlContent with
  | .error e => .error e
  | .ok toks =>
    let rendered := jinjaSubst toks vars
    let result := env.mjml rendered
    if result.errors ≠ [] then .error (.valueError "Errores en MJML") else .ok result.html

/-- The composite `render(templateSource, context)` of the specification:
`_load_mjml_template` followed by `_render_template`, exactly as `send_email`
composes them (src/EmailSender.py:193-194). -/
def renderFromPath (env : Env) (templatePath : String) (vars : Ctx) : Except PyError String :=
  match load_mjml_template env templatePath with
  | .error e => .error e
  | .ok content => render_template env content vars

/-- Model of `Path(p).name`: the final path component. -/
def baseName (p : String) : String :=
  String.mk ((p.data.reverse.takeWhile (fun c => c ≠ '/')).reverse)

/-- The attachment loop of `_create_message`/`_attach_file`
(src/EmailSender.py:137-164): for each path in order, raise
`FileNotFoundError` when absent, else read the bytes into an attachment part. -/
def attachAll (env : Env) : List String → Except PyError (List (String × String))
  | [] => .ok []
  | p :: rest =>
    match env.fs p with
    | none => .error (.fileNotFound ("Archivo no encontrado: " ++ p))
    | some content =>
      match attachAll env rest with
      | .error e => .error e
      | .ok r => .ok ((baseName p, content) :: r)

/-- Model of the Python join of addresses with a comma-space separator. -/
def joinAddrs (l : List String) : String := String.intercalate ", " l

/-- Model of `EmailSender._create_message` (src/EmailSender.py:96-142): build the MIME
message; `None` optional lists are modelled by `[]` (both are falsy in the
`if cc:` / `if bcc:` / `if attachments:` guards). -/
def create_message (env : Env) (toEmail subject htmlContent : String)
    (attachments : List String) (cc bcc : List String) : Except PyError Message :=
  let fromHeader :=
    match env.fromName with
    | some n => n ++ " <" ++ env.fromEmail ++ ">"
    | none => env.fromEmail
  match attachAll env attachments with
  | .error e => .error e
  | .ok atts =>
    .ok { subject := subject, toEmail := toEmail, fromHeader := fromHeader,
          ccHeader := if cc = [] then none else some (joinAddrs cc),
          bccHeader := if bcc = [] then none else some (joinAddrs bcc),
          html := htmlContent, attachments := atts }

/-- The `try` body of `EmailSender.send_email` (src/EmailSender.py:191-216):
load, render, build, then hand the message to the transport. -/
def send_email_body (env : Env) (toEmail subject templatePath : String) (vars : Ctx)
    (attachments cc bcc : List String) : Except PyError Unit :=
  match load_mjml_template env templatePath with
  | .error e => .error e
  | .ok mjmlContent =>
    match render_template env mjmlContent vars with
    | .error e => .error e
    | .ok htmlContent =>
      match create_message env toEmail subject htmlContent attachments cc bcc with
      | .error e => .error e
      | .ok msg => env.transport msg

/-- Model of `EmailSender.send_email` (src/EmailSender.py:166-220): the `try` body with
`except Exception: return False`; success returns `True`. Typed as fallible
because a Python coroutine can in principle raise. -/
def send_email (env : Env) (toEmail subject templatePath : String) (vars : Ctx)
    (attachments cc bcc : List String) : Except PyError Bool :=
  match send_email_body env toEmail subject templatePath vars attachments cc bcc with
  | .ok _ => .ok true
  | .error _ => .ok false

/-- Split a character list at the first `\x7d`, returning the part before and the
part after; `none` when no `\x7d` occurs. -/
def splitAtRBrace : List Char → Option (List Char × List Char)
  | [] => none
  | c :: rest =>
    if c = '}' then some ([], rest)
    else
      match splitAtRBrace rest with
      | none => none
      | some (a, b) => some (c :: a, b)

/-- Fuelled model of Python `s.format(**vars)` on the plain-field subset:
`\x7b\x7b`/`\x7d\x7d` escapes, `\x7bname\x7d` fields looked up in `vars` (missing key raises
`KeyError`, empty field raises `IndexError` as with no positional arguments),
and a stray single brace raises `ValueError`. The fuel strictly exceeds the
character count at every call, so the fuel-exhaustion branch is unreachable
from `pyFormat`. -/
def pyFormatAux (vars : Ctx) : Nat → List Char → Except PyError (List Char)
  | 0, _ => .error (.valueError "fuel exhausted")
  | _ + 1, [] => .ok []
  | n + 1, c :: rest =>
    if c = '{' then
      if rest.head? = some '{' then
        match pyFormatAux vars n rest.tail with
        | .error e => .error e
        | .ok r => .ok ('{' :: r)
      else
        match splitAtRBrace rest with
        | none => .error (.valueError "Single left brace encountered")
        | some (key, rest2) =>
          if key = [] then .error .indexError
          else
            match lookupCtx vars (String.mk key) with
            | none => .error (.keyError (String.mk key))
            | some v =>
              match pyFormatAux vars n rest2 with
              | .error e => .error e
              | .ok r => .ok (v.data ++ r)
    else if c = '}' then
      if rest.head? = some '}' then
        match pyFormatAux vars n rest.tail with
        | .error e => .error e
        | .ok r => .ok ('}' :: r)
      else .error (.valueError "Single right brace encountered")
    else
      match pyFormatAux vars n rest with
      | .error e => .error e
      | .ok r => .ok (c :: r)

/-- Python `subject.format(**variables)` (src/EmailSender.py:253). -/
def pyFormat (s : String) (vars : Ctx) : Except PyError String :=
  match pyFormatAux vars (s.data.length + 1) s.data with
  | .error e => .error e
  | .ok r => .ok (String.mk r)

/-- Python `"\x7b" in subject`. -/
def containsBrace (s : String) : Bool := s.data.contains '{'

/-- The per-recipient effective subject (src/EmailSender.py:252-254):
`subject.format(**variables) if "\x7b" in subject else subject`. -/
def renderedSubject (subject : String) (vars : Ctx) : Except PyError String :=
  if containsBrace subject then pyFormat subject vars else .ok subject

/-- One entry of the `recipients` list of `send_bulk_emails`: a Python dict
whose `email` and `variables` keys may each be present or absent. -/
structure RecipientRec where
  email : Option String
  varsDict : Option Ctx
deriving DecidableEq, Repr

/-- The task-building loop of `send_bulk_emails` (src/EmailSender.py:245-263):
read `recipient["email"]` (raising `KeyError` when absent), default a missing
`variables` key to the empty dict, compute the effective subject (a raised
`KeyError`/`ValueError` aborts the loop), and pair the address with the
`send_email` coroutine (modelled by its eventual result). -/
def buildTasks (env : Env) (recipients : List RecipientRec)
    (subject templatePath : String) (attachments : List String) :
    Except PyError (List (String × Except PyError Bool)) :=
  match recipients with
  | [] => .ok []
  | r :: rest =>
    match r.email with
    | none => .error (.keyError "email")
    | some email =>
      let vars := r.varsDict.getD []
      match renderedSubject subject vars with
      | .error e => .error e
      | .ok rsubj =>
        match buildTasks env rest subject templatePath attachments with
        | .error e => .error e
        | .ok rest' =>
          .ok ((email, send_email env email rsubj templatePath vars attachments [] []) :: rest')

/-- A settled result delivered by `asyncio.gather(..., return_exceptions=True)`:
either the coroutine's value or the exception object it raised. -/
inductive GResult where
  | val (b : Bool)
  | exn (e : PyError)
deriving DecidableEq, Repr

/-- Model of `return_exceptions=True`: a raised exception becomes a result value. -/
def gatherWrap : Except PyError Bool → GResult
  | .ok b => .val b
  | .error e => .exn e

/-- The `{"success": [...], "failed": [...]}` dictionary returned by
`send_bulk_emails`. -/
structure BulkResult where
  success : List String
  failed : List String
deriving DecidableEq, Repr

/-- The classification loop of `send_bulk_emails` (src/EmailSender.py:270-280):
an address goes to `success` exactly when its settled result `is True`,
otherwise to `failed`; input order is preserved within each list. -/
def classify : List (String × GResult) → BulkResult
  | [] => { success := [], failed := [] }
  | (e, r) :: rest =>
    let b := classify rest
    if r = GResult.val true then { success := e :: b.success, failed := b.failed }
    else { success := b.success, failed := e :: b.failed }

/-- Model of `EmailSender.send_bulk_emails` (src/EmailSender.py:222-280): build the
per-recipient tasks (exceptions in the loop propagate to the caller), gather
all results with `return_exceptions=True`, and classify. -/
def send_bulk_emails (env : Env) (recipients : List RecipientRec)
    (subject templatePath : String) (attachments : List String) :
    Except PyError BulkResult :=
  match buildTasks env recipients subject templatePath attachments with
  | .error e => .error e
  | .ok tasks => .ok (classify (tasks.map (fun t => (t.1, gatherWrap t.2))))

/-- Two successive calls of `_render_template` on the same input, for the
idempotence property: the model carries no state between the calls, just as
the Python method constructs a fresh `Template` and touches no instance
state. -/
def renderTwice (env : Env) (mjmlContent : String) (vars : Ctx) :
    Except PyError String × Except PyError String :=
  (render_template env mjmlContent vars, render_template env mjmlContent vars)

/-! ## Concrete environments and data used by counterexamples and witnesses -/

/-- Environment whose file system holds one placeholder-free template, whose
MJML converter passes content through, and whose transport succeeds exactly
for messages with subject `A`. -/
def envOkFail : Env :=
  { fs := fun p => if p = "t.mjml" then some "<mjml></mjml>" else none,
    mjml := fun s => { errors := [], html := s },
    transport := fun m => if m.subject = "A" then .ok () else .error (.smtpError "connection refused"),
    fromEmail := "sender@example.com", fromName := none }

/-- Environment whose template file contains the jinja placeholder `name` and
whose converter and transport always succeed. -/
def envHello : Env :=
  { fs := fun p => if p = "t.mjml" then some "Hello \x7b\x7bname\x7d\x7d" else none,
    mjml := fun s => { errors := [], html := s },
    transport := fun _ => .ok (),
    fromEmail := "sender@example.com", fromName := none }

/-- Environment with an empty file system, an MJML converter that always
reports errors, and a transport that always raises. -/
def envDown : Env :=
  { fs := fun _ => none,
    mjml := fun _ => { errors := ["invalid mjml"], html := "" },
    transport := fun _ => .error (.smtpError "connection refused"),
    fromEmail := "sender@example.com", fromName := none }

/-- Two recipients with distinct addresses; under `envOkFail` and subject
template `\x7bn\x7d` the first send succeeds and the second fails. -/
def recipientsW : List RecipientRec :=
  [{ email := some "a@x", varsDict := some [("n", "A")] },
   { email := some "b@x", varsDict := some [("n", "B")] }]

/-- The bulk result produced by `send_bulk_emails` on `recipientsW`. -/
def bulkResultW : BulkResult := { success := ["a@x"], failed := ["b@x"] }

/-- The task list `buildTasks` produces on `recipientsW` with the
placeholder-free subject `s`. -/
def tasksW : List (String × Except PyError Bool) :=
  [("a@x", send_email envOkFail "a@x" "s" "t.mjml" [("n", "A")] [] [] []),
   ("b@x", send_email envOkFail "b@x" "s" "t.mjml" [("n", "B")] [] [] [])]

/-! ## Helper lemmas about the classification loop -/

/-- Unfolding equation of `classify` when the settled result is `True`. -/
lemma classify_cons_pos (a : String) (rest : List (String × GResult)) :
    classify ((a, GResult.val true) :: rest) =
      { success := a :: (classify rest).success, failed := (classify rest).failed } := by
  simp [classify]

/-- Unfolding equation of `classify` when the settled result is not `True`. -/
lemma classify_cons_neg (a : String) {r : GResult} (h : r ≠ GResult.val true)
    (rest : List (String × GResult)) :
    classify ((a, r) :: rest) =
      { success := (classify rest).success, failed := a :: (classify rest).failed } := by
  simp [classify, h]

/-- The two classified lists together have one entry per settled task. -/
lemma classify_length (l : List (String × GResult)) :
    (classify l).success.length + (classify l).failed.length = l.length := by
  induction l with
  | nil => rfl
  | cons p rest ih =>
    obtain ⟨a, r⟩ := p
    by_cases h : r = GResult.val true
    · subst h; rw [classify_cons_pos]; simp; omega
    · rw [classify_cons_neg a h]; simp; omega

/-- An address is in `success` exactly when it is paired with result `True`. -/
lemma classify_mem_success (l : List (String × GResult)) (e : String) :
    e ∈ (classify l).success ↔ (e, GResult.val true) ∈ l := by
  induction l with
  | nil => simp [classify]
  | cons p rest ih =>
    obtain ⟨a, r⟩ := p
    by_cases h : r = GResult.val true
    · subst h
      rw [classify_cons_pos]
      simp only [List.mem_cons]
      constructor
      · rintro (he | hm)
        · exact Or.inl (by rw [he])
        · exact Or.inr (ih.mp hm)
      · rintro (he | hm)
        · exact Or.inl (congrArg Prod.fst he)
        · exact Or.inr (ih.mpr hm)
    · rw [classify_cons_neg a h]
      rw [ih]
      simp only [List.mem_cons]
      constructor
      · exact Or.inr
      · rintro (he | hm)
        · exact absurd (congrArg Prod.snd he).symm h
        · exact hm

/-- An address is in `failed` exactly when it is paired with a settled result
other than `True` (a `False` return or a raised exception). -/
lemma classify_mem_failed (l : List (String × GResult)) (e : String) :
    e ∈ (classify l).failed ↔ ∃ g, (e, g) ∈ l ∧ g ≠ GResult.val true := by
  induction l with
  | nil => simp [classify]
  | cons p rest ih =>
    obtain ⟨a, r⟩ := p
    by_cases h : r = GResult.val true
    · subst h
      rw [classify_cons_pos]
      simp only [List.mem_cons]
      constructor
      · intro hm
        obtain ⟨g, hg, hne⟩ := ih.mp hm
        exact ⟨g, Or.inr hg, hne⟩
      · rintro ⟨g, hg | hg, hne⟩
        · exact absurd (congrArg Prod.snd hg) hne
        · exact ih.mpr ⟨g, hg, hne⟩
    · rw [classify_cons_neg a h]
      simp only [List.mem_cons]
      constructor
      · rintro (he | hm)
        · exact ⟨r, Or.inl (by rw [he]), h⟩
        · obtain ⟨g, hg, hne⟩ := ih.mp hm
          exact ⟨g, Or.inr hg, hne⟩
      · rintro ⟨g, hg | hg, hne⟩
        · left; exact congrArg Prod.fst hg
        · right; exact ih.mpr ⟨g, hg, hne⟩

/-- When the addresses of a settled list are pairwise distinct, the settled
result attached to an address is unique. -/
lemma snd_eq_of_nodup_fst {l : List (String × GResult)} (h : (l.map Prod.fst).Nodup)
    {e : String} {g1 g2 : GResult} (h1 : (e, g1) ∈ l) (h2 : (e, g2) ∈ l) : g1 = g2 := by
  induction l with
  | nil => cases h1
  | cons p rest ih =>
    simp only [List.map_cons, List.nodup_cons] at h
    rcases List.mem_cons.mp h1 with he1 | he1 <;> rcases List.mem_cons.mp h2 with he2 | he2
    · exact congrArg Prod.snd (he1.trans he2.symm)
    · exfalso
      apply h.1
      have hp : p.1 = e := congrArg Prod.fst he1.symm
      rw [hp]
      exact List.mem_map_of_mem Prod.fst he2
    · exfalso
      apply h.1
      have hp : p.1 = e := congrArg Prod.fst he2.symm
      rw [hp]
      exact List.mem_map_of_mem Prod.fst he1
    · exact ih h.2 he1 he2

/-- Every settled task's address lands in one of the two lists. -/
lemma classify_cover {l : List (String × GResult)} {p : String × GResult} (hp : p ∈ l) :
    p.1 ∈ (classify l).success ∨ p.1 ∈ (classify l).failed := by
  by_cases h : p.2 = GResult.val true
  · left
    rw [classify_mem_success]
    have h2 : p = (p.1, GResult.val true) := by rw [← h]
    exact h2 ▸ hp
  · right
    rw [classify_mem_failed]
    exact ⟨p.2, by simpa using hp, h⟩

/-- Partition property of `classify` on settled lists with pairwise-distinct
addresses: lengths add up, the lists are disjoint, and every settled address
lands in exactly one list. -/
lemma classify_partition (pairs : List (String × GResult)) (hnd : (pairs.map Prod.fst).Nodup) :
    (classify pairs).success.length + (classify pairs).failed.length = pairs.length ∧
    (∀ e, ¬(e ∈ (classify pairs).success ∧ e ∈ (classify pairs).failed)) ∧
    (∀ p ∈ pairs, (p.1 ∈ (classify pairs).success ∧ p.1 ∉ (classify pairs).failed) ∨
      (p.1 ∈ (classify pairs).failed ∧ p.1 ∉ (classify pairs).success)) := by
  have hdisj : ∀ e, ¬(e ∈ (classify pairs).success ∧ e ∈ (classify pairs).failed) := by
    rintro e ⟨hs, hf⟩
    have h1 := (classify_mem_success pairs e).mp hs
    obtain ⟨g, hg, hne⟩ := (classify_mem_failed pairs e).mp hf
    exact hne (snd_eq_of_nodup_fst hnd hg h1)
  refine ⟨classify_length pairs, hdisj, ?_⟩
  intro p hp
  rcases classify_cover hp with hc | hc
  · exact Or.inl ⟨hc, fun hf => hdisj p.1 ⟨hc, hf⟩⟩
  · exact Or.inr ⟨hc, fun hs => hdisj p.1 ⟨hs, hc⟩⟩

/-! ## Helper lemmas about the bulk task-building loop and single send -/

/-- When the task-building loop completes, it pairs each input recipient, in
order, with exactly its `email` value. -/
lemma buildTasks_emails {env : Env} {rs : List RecipientRec} {subject tp : String}
    {atts : List String} {tasks : List (String × Except PyError Bool)}
    (h : buildTasks env rs subject tp atts = .ok tasks) :
    rs.map RecipientRec.email = tasks.map (fun t => some t.1) := by
  induction rs generalizing tasks with
  | nil =>
    simp only [buildTasks] at h
    cases h
    rfl
  | cons r rest ih =>
    simp only [buildTasks] at h
    cases he : r.email with
    | none => rw [he] at h; cases h
    | some em =>
      rw [he] at h
      cases hs : renderedSubject subject (r.varsDict.getD []) with
      | error e => rw [hs] at h; cases h
      | ok rsubj =>
        rw [hs] at h
        cases hb : buildTasks env rest subject tp atts with
        | error e => rw [hb] at h; cases h
        | ok rest' =>
          rw [hb] at h
          cases h
          simp [he, ih hb]

/-- A recipient dict without an `email` key makes the task-building loop raise. -/
lemma buildTasks_error_of_missing_email {env : Env} {rs : List RecipientRec}
    {subject tp : String} {atts : List String}
    (h : ∃ rec ∈ rs, rec.email = none) :
    ∃ err, buildTasks env rs subject tp atts = .error err := by
  induction rs with
  | nil => simp at h
  | cons r rest ih =>
    obtain ⟨rec, hmem, hnone⟩ := h
    rcases List.mem_cons.mp hmem with hr | hr
    · subst hr
      exact ⟨.keyError "email", by simp [buildTasks, hnone]⟩
    · cases he : r.email with
      | none => exact ⟨.keyError "email", by simp [buildTasks, he]⟩
      | some em =>
        cases hs : renderedSubject subject (r.varsDict.getD []) with
        | error e => exact ⟨e, by simp [buildTasks, he, hs]⟩
        | ok rsubj =>
          obtain ⟨err, herr⟩ := ih ⟨rec, hr, hnone⟩
          exact ⟨err, by simp [buildTasks, he, hs, herr]⟩

/-- A missing attachment file makes the attachment loop raise. -/
lemma attachAll_error_of_missing {env : Env} {atts : List String}
    (h : ∃ a ∈ atts, env.fs a = none) :
    ∃ e, attachAll env atts = .error e := by
  induction atts with
  | nil => simp at h
  | cons p rest ih =>
    obtain ⟨a, hmem, hnone⟩ := h
    rcases List.mem_cons.mp hmem with ha | ha
    · subst ha
      exact ⟨.fileNotFound ("Archivo no encontrado: " ++ a), by simp [attachAll, hnone]⟩
    · cases hp : env.fs p with
      | none => exact ⟨.fileNotFound ("Archivo no encontrado: " ++ p), by simp [attachAll, hp]⟩
      | some c =>
        obtain ⟨e, he⟩ := ih ⟨a, ha, hnone⟩
        exact ⟨e, by simp [attachAll, hp, he]⟩

/-- The `except Exception` clause turns every raised error into `False`. -/
lemma send_email_of_body_error {env : Env} {toEmail subject templatePath : String}
    {vars : Ctx} {attachments cc bcc : List String} {e : PyError}
    (h : send_email_body env toEmail subject templatePath vars attachments cc bcc = .error e) :
    send_email env toEmail subject templatePath vars attachments cc bcc = .ok false := by
  simp [send_email, h]

/-! ## Helper lemmas about jinja substitution -/

/-- Prepending the empty string is the identity. -/
lemma str_empty_append (s : String) : "" ++ s = s := rfl

/-- First-match lookup on an appended context consults the second part only
when the first has no binding. -/
lemma lookupCtx_append (l1 l2 : Ctx) (k : String) :
    lookupCtx (l1 ++ l2) k =
      match lookupCtx l1 k with
      | some v => some v
      | none => lookupCtx l2 k := by
  induction l1 with
  | nil => rfl
  | cons p rest ih =>
    obtain ⟨a, b⟩ := p
    by_cases ha : a = k
    · simp [lookupCtx, ha]
    · simp [lookupCtx, ha, ih]

/-- Appending an empty-string binding to the context changes no token's
rendering: a variable already bound keeps its value by first-match lookup,
and an unbound variable renders as the empty string either way. -/
lemma renderTok_pad (vars : Ctx) (name : String) (t : JTok) :
    renderTok (vars ++ [(name, "")]) t = renderTok vars t := by
  cases t with
  | text s => rfl
  | varTok n =>
    simp only [renderTok, lookupCtx_append]
    cases hv : lookupCtx vars n with
    | some v => rfl
    | none =>
      simp only [lookupCtx]
      by_cases hn : name = n
      · simp [hn]
      · simp [hn]

/-- Appending an empty-string binding to the context leaves the whole jinja
substitution unchanged. -/
lemma jinjaSubst_pad (vars : Ctx) (name : String) (toks : List JTok) :
    jinjaSubst toks (vars ++ [(name, "")]) = jinjaSubst toks vars := by
  induction toks with
  | nil => rfl
  | cons t rest ih =>
    show renderTok (vars ++ [(name, "")]) t ++ jinjaSubst rest (vars ++ [(name, "")]) =
      renderTok vars t ++ jinjaSubst rest vars
    rw [renderTok_pad vars name t, ih]

/-- With a variable absent from the context, jinja substitution produces the
same text as the template with every placeholder of that variable deleted. -/
lemma jinjaSubst_filter_undefined {vars : Ctx} {name : String}
    (h : lookupCtx vars name = none) (toks : List JTok) :
    jinjaSubst toks vars =
      jinjaSubst (toks.filter (fun t => t ≠ JTok.varTok name)) vars := by
  induction toks with
  | nil => rfl
  | cons t rest ih =>
    by_cases ht : t = JTok.varTok name
    · subst ht
      have hw : jinjaSubst (JTok.varTok name :: rest) vars = "" ++ jinjaSubst rest vars := by
        show renderTok vars (JTok.varTok name) ++ jinjaSubst rest vars =
          "" ++ jinjaSubst rest vars
        simp [renderTok, h]
      have hf : (JTok.varTok name :: rest).filter (fun t => t ≠ JTok.varTok name) =
          rest.filter (fun t => t ≠ JTok.varTok name) := by
        simp [List.filter_cons]
      rw [hw, str_empty_append, ih, hf]
    · have hf : (t :: rest).filter (fun t => t ≠ JTok.varTok name) =
          t :: rest.filter (fun t => t ≠ JTok.varTok name) := by
        simp [List.filter_cons, ht]
      rw [hf]
      show renderTok vars t ++ jinjaSubst rest vars =
        renderTok vars t ++ jinjaSubst (rest.filter (fun t => t ≠ JTok.varTok name)) vars
      rw [ih]

/-! ## Claim theorems -/

/-- C1 (counterexample): the claim fails as stated when two recipient records
share an address. With duplicate address `dup@x`, personalized subjects `A`
(transport succeeds) and `B` (transport fails), `send_bulk_emails` returns
`success = [dup@x]` and `failed = [dup@x]`: the same address appears in both
lists, and this recipient appears in both rather than exactly one. -/
theorem bulk_duplicate_address_in_both_lists :
    send_bulk_emails envOkFail
      [{ email := some "dup@x", varsDict := some [("n", "A")] },
       { email := some "dup@x", varsDict := some [("n", "B")] }]
      "\x7bn\x7d" "t.mjml" [] = .ok { success := ["dup@x"], failed := ["dup@x"] } := rfl

/-- C1 (amended): whenever `send_bulk_emails` returns a result and the input
recipient records carry pairwise-distinct `email` entries, the `success` and
`failed` lists have combined length N, no address appears in both lists, and
every input recipient's address appears in exactly one of the two lists. -/
theorem bulk_partition_of_distinct_recipients (env : Env) (rs : List RecipientRec)
    (subject tp : String) (atts : List String) (r : BulkResult)
    (h : send_bulk_emails env rs subject tp atts = .ok r)
    (hnd : (rs.map RecipientRec.email).Nodup) :
    r.success.length + r.failed.length = rs.length ∧
    (∀ e, ¬(e ∈ r.success ∧ e ∈ r.failed)) ∧
    (∀ rec ∈ rs, ∃ e, rec.email = some e ∧
      ((e ∈ r.success ∧ e ∉ r.failed) ∨ (e ∈ r.failed ∧ e ∉ r.success))) := by
  cases hb : buildTasks env rs subject tp atts with
  | error er => simp [send_bulk_emails, hb] at h
  | ok tasks =>
    simp only [send_bulk_emails, hb] at h
    have hr : r = classify (tasks.map (fun t => (t.1, gatherWrap t.2))) := by
      cases h
      rfl
    subst hr
    have hemails := buildTasks_emails hb
    have hfst : (tasks.map (fun t => (t.1, gatherWrap t.2))).map Prod.fst = tasks.map Prod.fst := by
      simp
    have hsome : rs.map RecipientRec.email = (tasks.map Prod.fst).map some := by
      rw [hemails]
      simp [List.map_map, Function.comp]
    have hnd2 : ((tasks.map (fun t => (t.1, gatherWrap t.2))).map Prod.fst).Nodup := by
      rw [hfst]
      exact List.Nodup.of_map some (by rw [← hsome]; exact hnd)
    obtain ⟨hlen, hdisj, hcov⟩ := classify_partition (tasks.map (fun t => (t.1, gatherWrap t.2))) hnd2
    refine ⟨?_, hdisj, ?_⟩
    · have hplen : (tasks.map (fun t => (t.1, gatherWrap t.2))).length = tasks.length := by simp
      have htlen : tasks.length = rs.length := by
        have := congrArg List.length hemails
        simp at this
        omega
      omega
    · intro rec hrec
      have hmem : rec.email ∈ rs.map RecipientRec.email := List.mem_map_of_mem _ hrec
      rw [hemails] at hmem
      obtain ⟨t, ht, hte⟩ := List.mem_map.mp hmem
      refine ⟨t.1, hte.symm, ?_⟩
      have hp : (t.1, gatherWrap t.2) ∈ tasks.map (fun t => (t.1, gatherWrap t.2)) :=
        List.mem_map_of_mem _ ht
      exact hcov _ hp

/-- C1 (witness): on `recipientsW` (distinct addresses `a@x`, `b@x`, where the
transport delivers the first and rejects the second) the partition properties
hold of the returned result `bulkResultW`. -/
theorem bulk_partition_of_distinct_recipients_witness :
    bulkResultW.success.length + bulkResultW.failed.length = recipientsW.length ∧
    (∀ e, ¬(e ∈ bulkResultW.success ∧ e ∈ bulkResultW.failed)) ∧
    (∀ rec ∈ recipientsW, ∃ e, rec.email = some e ∧
      ((e ∈ bulkResultW.success ∧ e ∉ bulkResultW.failed) ∨
       (e ∈ bulkResultW.failed ∧ e ∉ bulkResultW.success))) :=
  bulk_partition_of_distinct_recipients envOkFail recipientsW "\x7bn\x7d" "t.mjml" [] bulkResultW
    rfl (by decide)

/-- C2: `send_email` never raises to its caller: for every environment and
input it returns `True` or `False`, and it returns `False` when the template
path does not exist, when some attachment path does not exist, when the
markup converter reports errors, and when the transport call raises. -/
theorem send_email_never_raises (env : Env) (toEmail subject templatePath : String)
    (vars : Ctx) (attachments cc bcc : List String) :
    (send_email env toEmail subject templatePath vars attachments cc bcc = .ok true ∨
     send_email env toEmail subject templatePath vars attachments cc bcc = .ok false) ∧
    (env.fs templatePath = none →
      send_email env toEmail subject templatePath vars attachments cc bcc = .ok false) ∧
    ((∃ a ∈ attachments, env.fs a = none) →
      send_email env toEmail subject templatePath vars attachments cc bcc = .ok false) ∧
    ((∀ s, (env.mjml s).errors ≠ []) →
      send_email env toEmail subject templatePath vars attachments cc bcc = .ok false) ∧
    ((∀ m, ∃ er, env.transport m = .error er) →
      send_email env toEmail subject templatePath vars attachments cc bcc = .ok false) := by
  refine ⟨?_, ?_, ?_, ?_, ?_⟩
  · cases hb : send_email_body env toEmail subject templatePath vars attachments cc bcc with
    | ok u => left; simp [send_email, hb]
    | error e => right; simp [send_email, hb]
  · intro h
    have hb : send_email_body env toEmail subject templatePath vars attachments cc bcc =
        .error (.fileNotFound ("Template no encontrado: " ++ templatePath)) := by
      simp [send_email_body, load_mjml_template, h]
    exact send_email_of_body_error hb
  · intro h
    obtain ⟨e, he⟩ := attachAll_error_of_missing h
    cases hl : load_mjml_template env templatePath with
    | error er =>
      have hb : send_email_body env toEmail subject templatePath vars attachments cc bcc =
          .error er := by simp [send_email_body, hl]
      exact send_email_of_body_error hb
    | ok content =>
      cases hr : render_template env content vars with
      | error er =>
        have hb : send_email_body env toEmail subject templatePath vars attachments cc bcc =
            .error er := by simp [send_email_body, hl, hr]
        exact send_email_of_body_error hb
      | ok htmlC =>
        have hc : create_message env toEmail subject htmlC attachments cc bcc = .error e := by
          simp [create_message, he]
        have hb : send_email_body env toEmail subject templatePath vars attachments cc bcc =
            .error e := by simp [send_email_body, hl, hr, hc]
        exact send_email_of_body_error hb
  · intro h
    cases hl : load_mjml_template env templatePath with
    | error er =>
      have hb : send_email_body env toEmail subject templatePath vars attachments cc bcc =
          .error er := by simp [send_email_body, hl]
      exact send_email_of_body_error hb
    | ok content =>
      cases hp : parseJinja content with
      | error er =>
        have hb : send_email_body env toEmail subject templatePath vars attachments cc bcc =
            .error er := by simp [send_email_body, render_template, hl, hp]
        exact send_email_of_body_error hb
      | ok toks =>
        have hr : render_template env content vars = .error (.valueError "Errores en MJML") := by
          simp [render_template, hp, h (jinjaSubst toks vars)]
        have hb : send_email_body env toEmail subject templatePath vars attachments cc bcc =
            .error (.valueError "Errores en MJML") := by simp [send_email_body, hl, hr]
        exact send_email_of_body_error hb
  · intro h
    cases hl : load_mjml_template env templatePath with
    | error er =>
      have hb : send_email_body env toEmail subject templatePath vars attachments cc bcc =
          .error er := by simp [send_email_body, hl]
      exact send_email_of_body_error hb
    | ok content =>
      cases hr : render_template env content vars with
      | error er =>
        have hb : send_email_body env toEmail subject templatePath vars attachments cc bcc =
            .error er := by simp [send_email_body, hl, hr]
        exact send_email_of_body_error hb
      | ok htmlC =>
        cases hc : create_message env toEmail subject htmlC attachments cc bcc with
        | error er =>
          have hb : send_email_body env toEmail subject templatePath vars attachments cc bcc =
              .error er := by simp [send_email_body, hl, hr, hc]
          exact send_email_of_body_error hb
        | ok msg =>
          obtain ⟨er, her⟩ := h msg
          have hb : send_email_body env toEmail subject templatePath vars attachments cc bcc =
              .error er := by simp [send_email_body, hl, hr, hc, her]
          exact send_email_of_body_error hb

/-- C2 (witness): `send_email` evaluates to `False` on a missing template, a
missing attachment, an always-erroring converter, and an always-raising
transport. -/
theorem send_email_never_raises_witness :
    send_email envDown "to@x" "Hi" "missing.mjml" [] [] [] [] = .ok false ∧
    send_email envHello "to@x" "Hi" "t.mjml" [("name", "X")] ["a.pdf"] [] [] = .ok false ∧
    send_email envDown "to@x" "Hi" "t.mjml" [] [] [] [] = .ok false ∧
    send_email envDown "to@x" "Hi2" "t.mjml" [] [] [] [] = .ok false :=
  ⟨(send_email_never_raises envDown "to@x" "Hi" "missing.mjml" [] [] [] []).2.1 rfl,
   (send_email_never_raises envHello "to@x" "Hi" "t.mjml" [("name", "X")] ["a.pdf"] [] []).2.2.1
     (by decide),
   (send_email_never_raises envDown "to@x" "Hi" "t.mjml" [] [] [] []).2.2.2.1
     (fun s => by simp [envDown]),
   (send_email_never_raises envDown "to@x" "Hi2" "t.mjml" [] [] [] []).2.2.2.2
     (fun m => ⟨.smtpError "connection refused", rfl⟩)⟩

/-- C3 (counterexample): with subject template `Hi \x7bname\x7d` and a first
recipient whose context lacks `name`, `send_bulk_emails` raises `KeyError`
out of the call: no partition is returned, the second (well-formed) recipient
is never processed, and the batch is aborted — contradicting the claim that
only the offending recipient fails and is counted in `failed`. -/
theorem bulk_missing_subject_key_counterexample :
    send_bulk_emails envOkFail
      [{ email := some "a@x", varsDict := some [] },
       { email := some "b@x", varsDict := some [("name", "B")] }]
      "Hi \x7bname\x7d" "t.mjml" [] = .error (.keyError "name") := rfl

/-- C3 (amended): when the subject template contains a brace and formatting it
with a recipient's context raises, that exception propagates synchronously
out of `send_bulk_emails`, aborting the whole batch regardless of the
remaining recipients — no per-recipient failure entry is recorded. -/
theorem bulk_missing_subject_key_aborts (env : Env) (em : String) (v : Ctx)
    (rest : List RecipientRec) (subject tp : String) (atts : List String) (err : PyError)
    (h1 : containsBrace subject = true) (h2 : pyFormat subject v = .error err) :
    send_bulk_emails env ({ email := some em, varsDict := some v } :: rest) subject tp atts =
      .error err := by
  simp [send_bulk_emails, buildTasks, renderedSubject, h1, h2]

/-- C3 (witness): the subject template `\x7bk\x7d` with an empty context aborts a
one-recipient batch with `KeyError k`. -/
theorem bulk_missing_subject_key_aborts_witness :
    send_bulk_emails envOkFail [{ email := some "x@x", varsDict := some [] }]
      "\x7bk\x7d" "t.mjml" [] = .error (.keyError "k") :=
  bulk_missing_subject_key_aborts envOkFail "x@x" [] [] "\x7bk\x7d" "t.mjml" []
    (.keyError "k") rfl rfl

/-- C4: in the aggregation of `send_bulk_emails`, an address is placed in
`success` iff its settled result is the value `True`, and in `failed` iff its
settled result is anything else — including an exception object delivered by
`return_exceptions=True` (`GResult.exn`); a gathered task settles to `True`
iff the task returned `True`; and once the tasks are built the batch always
returns a classification (no abort at the aggregation point). -/
theorem bulk_aggregation_success_iff (l : List (String × GResult)) (e : String) :
    (e ∈ (classify l).success ↔ (e, GResult.val true) ∈ l) ∧
    (e ∈ (classify l).failed ↔ ∃ g, (e, g) ∈ l ∧ g ≠ GResult.val true) ∧
    (∀ t : Except PyError Bool, gatherWrap t = GResult.val true ↔ t = .ok true) ∧
    (∀ env rs subject tp atts tasks, buildTasks env rs subject tp atts = .ok tasks →
      send_bulk_emails env rs subject tp atts =
        .ok (classify (tasks.map (fun t => (t.1, gatherWrap t.2))))) := by
  refine ⟨classify_mem_success l e, classify_mem_failed l e, ?_, ?_⟩
  · intro t
    cases t with
    | ok b => cases b <;> simp [gatherWrap]
    | error er => simp [gatherWrap]
  · intro env rs subject tp atts tasks h
    simp [send_bulk_emails, h]

/-- C4 (witness): the aggregation properties evaluated on a settled list
containing a success and an escaped exception, and the no-abort property on a
concretely built task list. -/
theorem bulk_aggregation_success_iff_witness :
    ("a@x" ∈ (classify [("a@x", GResult.val true), ("b@x", GResult.exn (.smtpError "boom"))]).success ↔
      ("a@x", GResult.val true) ∈ [("a@x", GResult.val true), ("b@x", GResult.exn (.smtpError "boom"))]) ∧
    (gatherWrap (.ok true) = GResult.val true ↔ (.ok true : Except PyError Bool) = .ok true) ∧
    send_bulk_emails envOkFail recipientsW "s" "t.mjml" [] =
      .ok (classify (tasksW.map (fun t => (t.1, gatherWrap t.2)))) :=
  ⟨(bulk_aggregation_success_iff
      [("a@x", GResult.val true), ("b@x", GResult.exn (.smtpError "boom"))] "a@x").1,
   (bulk_aggregation_success_iff
      [("a@x", GResult.val true), ("b@x", GResult.exn (.smtpError "boom"))] "a@x").2.2.1 (.ok true),
   (bulk_aggregation_success_iff
      [("a@x", GResult.val true), ("b@x", GResult.exn (.smtpError "boom"))] "a@x").2.2.2
     envOkFail recipientsW "s" "t.mjml" [] tasksW rfl⟩

/-- C5 (counterexample): the template file of `envHello` contains the
placeholder `name`; rendering it with a context that lacks `name` does not
fail — it succeeds, silently substituting empty text (`Hello `) — because the
jinja default renders undefined variables as the empty string. -/
theorem render_undefined_variable_counterexample :
    renderFromPath envHello "t.mjml" [] = .ok "Hello " := rfl

/-- C5 (amended): for every environment, every template content, every
context, and every variable name that is not a key of the context, rendering
silently substitutes empty text for the undefined placeholders instead of
failing: the result of `_render_template` equals the result with that
variable explicitly bound to the empty string, and — for every parsed token
list — the jinja substitution output equals that of the template with every
placeholder of that variable deleted. -/
theorem render_undefined_variable_empty (env : Env) (mjmlContent : String) (vars : Ctx)
    (name : String) (h : lookupCtx vars name = none) :
    render_template env mjmlContent vars =
      render_template env mjmlContent (vars ++ [(name, "")]) ∧
    (∀ toks : List JTok,
      jinjaSubst toks vars = jinjaSubst (toks.filter (fun t => t ≠ JTok.varTok name)) vars) := by
  refine ⟨?_, fun toks => jinjaSubst_filter_undefined h toks⟩
  cases hp : parseJinja mjmlContent with
  | error e => simp [render_template, hp]
  | ok toks =>
    simp only [render_template, hp]
    rw [jinjaSubst_pad vars name toks]

/-- C5 (amended, witness): both conjuncts evaluated at a concrete template,
token list and context without the key `name`. -/
theorem render_undefined_variable_empty_witness :
    render_template envHello "Hello \x7b\x7bname\x7d\x7d" [("x", "y")] =
      render_template envHello "Hello \x7b\x7bname\x7d\x7d" ([("x", "y")] ++ [("name", "")]) ∧
    jinjaSubst [JTok.text "Hello ", JTok.varTok "name"] [("x", "y")] =
      jinjaSubst ([JTok.text "Hello ", JTok.varTok "name"].filter
        (fun t => t ≠ JTok.varTok "name")) [("x", "y")] :=
  ⟨(render_undefined_variable_empty envHello "Hello \x7b\x7bname\x7d\x7d" [("x", "y")] "name" rfl).1,
   (render_undefined_variable_empty envHello "Hello \x7b\x7bname\x7d\x7d" [("x", "y")] "name" rfl).2
     [JTok.text "Hello ", JTok.varTok "name"]⟩

/-- C6: the effective subject per recipient: when the subject template does
not contain the placeholder token (the `\x7b` character, per
src/EmailSender.py:253), it is used verbatim, identically for every
recipient's context; when it does, it is Python `format` applied to the
recipient's context; and `format` substitutes the context value of a
field. -/
theorem bulk_effective_subject (subject : String) (v v' : Ctx) :
    (containsBrace subject = false →
      renderedSubject subject v = .ok subject ∧
      renderedSubject subject v = renderedSubject subject v') ∧
    (containsBrace subject = true →
      renderedSubject subject v = pyFormat subject v) ∧
    (∀ val, lookupCtx v "n" = some val → pyFormat "\x7bn\x7d" v = .ok val) := by
  refine ⟨fun h => ⟨?_, ?_⟩, fun h => ?_, fun val h => ?_⟩
  · simp [renderedSubject, h]
  · simp [renderedSubject, h]
  · simp [renderedSubject, h]
  · have hd : ("\x7bn\x7d" : String).data = ['{', 'n', '}'] := rfl
    have hmk : String.mk ['n'] = "n" := rfl
    have hmk2 : ∀ s : String, String.mk s.data = s := fun s => rfl
    simp [pyFormat, pyFormatAux, splitAtRBrace, hd, hmk, hmk2, h]

/-- C6 (witness): the brace-free subject `Status` passes through verbatim for
two different contexts, and the braced subject `\x7bn\x7d` is formatted with the
recipient's context, substituting `A`. -/
theorem bulk_effective_subject_witness :
    (renderedSubject "Status" [("n", "A")] = .ok "Status" ∧
     renderedSubject "Status" [("n", "A")] = renderedSubject "Status" [("q", "B")]) ∧
    (renderedSubject "\x7bn\x7d" [("n", "A")] = pyFormat "\x7bn\x7d" [("n", "A")]) ∧
    (pyFormat "\x7bn\x7d" [("n", "A")] = .ok "A") :=
  ⟨(bulk_effective_subject "Status" [("n", "A")] [("q", "B")]).1 rfl,
   (bulk_effective_subject "\x7bn\x7d" [("n", "A")] [("q", "B")]).2.1 rfl,
   (bulk_effective_subject "\x7bn\x7d" [("n", "A")] [("q", "B")]).2.2 "A" rfl⟩

/-- C7: `send_bulk_emails` on the empty recipient list returns empty `success`
and `failed` lists for every environment — in particular for every transport
function, so no transport behaviour can influence the call (the transport is
never invoked). -/
theorem bulk_empty_recipients (env : Env) (subject tp : String) (atts : List String) :
    send_bulk_emails env [] subject tp atts = .ok { success := [], failed := [] } := rfl

/-- C8: rendering from a path that does not resolve to an existing file fails
with the template-not-found error (`FileNotFoundError` in the source), for
every context. -/
theorem render_missing_template_fails (env : Env) (tp : String) (vars : Ctx)
    (h : env.fs tp = none) :
    renderFromPath env tp vars = .error (.fileNotFound ("Template no encontrado: " ++ tp)) := by
  simp [renderFromPath, load_mjml_template, h]

/-- C8 (witness): the missing-template failure evaluated on the empty file
system with a non-empty context. -/
theorem render_missing_template_fails_witness :
    renderFromPath envDown "x.mjml" [("a", "b")] =
      .error (.fileNotFound ("Template no encontrado: " ++ "x.mjml")) :=
  render_missing_template_fails envDown "x.mjml" [("a", "b")] rfl

/-- C9: rendering is deterministic and stateless: two successive calls of
`_render_template` on the same template content and context produce equal
results. The embedding is a pure function of the environment, content and
context, mirroring the source, which constructs a fresh `Template` per call
and reads or writes no instance state. -/
theorem render_is_deterministic (env : Env) (content : String) (vars : Ctx) :
    (renderTwice env content vars).1 = (renderTwice env content vars).2 := rfl

/-- C10: in the bulk recipient dicts, a missing `variables` key is tolerated
and equivalent to an empty context, a leading recipient without an `email`
key raises `KeyError email` out of `send_bulk_emails`, and any recipient list
containing a record without an `email` key makes `send_bulk_emails` raise —
aborting the batch with no tasks awaited, for every environment and
transport. -/
theorem bulk_recipient_dict_keys (env : Env) (rs rest : List RecipientRec)
    (subject tp : String) (atts : List String) (em : String) (v : Ctx) :
    (send_bulk_emails env ({ email := some em, varsDict := none } :: rest) subject tp atts =
     send_bulk_emails env ({ email := some em, varsDict := some [] } :: rest) subject tp atts) ∧
    (send_bulk_emails env ({ email := none, varsDict := some v } :: rest) subject tp atts =
      .error (.keyError "email")) ∧
    ((∃ rec ∈ rs, rec.email = none) →
      ∃ err, send_bulk_emails env rs subject tp atts = .error err) := by
  refine ⟨rfl, rfl, fun h => ?_⟩
  obtain ⟨err, herr⟩ := @buildTasks_error_of_missing_email env rs subject tp atts h
  exact ⟨err, by simp [send_bulk_emails, herr]⟩

/-- C10 (witness): the `variables`-defaulting equality and the `email`
`KeyError` abort evaluated on concrete one-recipient batches. -/
theorem bulk_recipient_dict_keys_witness :
    (send_bulk_emails envOkFail [{ email := some "a@x", varsDict := none }] "s" "t.mjml" [] =
     send_bulk_emails envOkFail [{ email := some "a@x", varsDict := some [] }] "s" "t.mjml" []) ∧
    (send_bulk_emails envOkFail [{ email := none, varsDict := some [] }] "s" "t.mjml" [] =
      .error (.keyError "email")) ∧
    (∃ err, send_bulk_emails envOkFail [{ email := none, varsDict := some [] }] "s" "t.mjml" [] =
      .error err) := by
  have h := bulk_recipient_dict_keys envOkFail [{ email := none, varsDict := some [] }] []
      "s" "t.mjml" [] "a@x" []
  exact ⟨h.1, h.2.1, h.2.2 (by decide)⟩

end EmailSenderModel
